import Mathlib

/-!
Verification development for the `webharvest` concurrent web-scrapping scheduler.

The definitions below are a shallow embedding of the Python source:
`webharvest/schemas.py` (status enum and the per-run record),
`webharvest/exceptions.py` (failure taxonomy),
`webharvest/driver.py` (driver context, state installation, run-one-step),
and `webharvest/webscrapper.py` (worker loop `scrape_item`, the result
collector `process_completed_tasks` / `process_completed_future`, future
cancellation `cancel_futures`, and pool drain `clear_driver_queue`).

Generic pydantic payloads (`input_data`, `output_data`) are embedded as
natural numbers; `input_data` doubles as the task identity, matching the
fact that in Python the record handed back by a worker is the very object
that was submitted. Real-time waits are embedded by their observable
outcome: a bounded `queue.get(timeout)` on a queue that stays empty raises
`queue.Empty`.
-/

namespace Webharvest

/-- `ContextStatusEnum` from `schemas.py`: the five statuses of a run. -/
inductive ContextStatusEnum where
  | INITIALIZED
  | SUCCEED
  | FAILED
  | CRITICAL
  | CANCELLED
deriving DecidableEq

/-- Python exception values relevant to the scheduler. `webScrapperException`
stands for `WebScrapperException` (and its subclasses) from `exceptions.py`;
`queueEmpty` is `queue.Empty` raised by a timed-out `queue.get`; `typeError`
is `TypeError`; `otherException` is any other `Exception`. Every constructor
is an `isinstance(e, Exception)` value in Python. -/
inductive PyExn where
  | webScrapperException (msg : String)
  | queueEmpty
  | typeError (msg : String)
  | otherException (msg : String)
deriving DecidableEq

/-- `isinstance(e, WebScrapperException)` on the embedded exceptions. -/
def PyExn.isWebScrapperException : PyExn → Bool
  | .webScrapperException _ => true
  | _ => false

/-- `ContextStatusSchema` from `schemas.py`: the mutable record of one
webscrapping run. `input_data` doubles as the task identity; `tmp_data`
embeds the free-form dict as an association list. -/
structure ContextStatusSchema where
  status : ContextStatusEnum := .INITIALIZED
  error : Option PyExn := none
  current_state : Option String := none
  input_data : Nat
  output_data : Nat := 0
  tmp_data : List (String × Nat) := []
deriving DecidableEq

/-- The list of terminal statuses checked by `DriverContext.has_finished`
(`driver.py` lines 217-224). -/
def terminal_statuses : List ContextStatusEnum :=
  [ContextStatusEnum.SUCCEED, ContextStatusEnum.FAILED,
   ContextStatusEnum.CRITICAL, ContextStatusEnum.CANCELLED]

/-- A driver-state class as seen by `DriverContext.set_state`: its
`__name__` and whether `issubclass(cls, DriverState)` holds. -/
structure StateClass where
  name : String
  isDriverStateSubclass : Bool
deriving DecidableEq

/-- An instance of a driver-state class, as built by
`state_cls(driver_context=self)` in `DriverContext.set_state`:
it records its class and the id of the context it is bound to. -/
structure DriverStateInstance where
  cls : StateClass
  driver_context_id : Nat
deriving DecidableEq

/-- `DriverContext` from `driver.py`, restricted to the scheduler-relevant
fields: an identity, the mutable `status` record of the current run, and the
currently installed driver state (`self.state`). The Selenium session is
opaque to the scheduler and is not part of the embedding. -/
structure DriverContext where
  id : Nat
  status : ContextStatusSchema
  state : DriverStateInstance
deriving DecidableEq

/-- `DriverContext.has_finished` (`driver.py`): the run has finished when
`self.status.status` is in the terminal list. -/
def DriverContext.has_finished (ctx : DriverContext) : Bool :=
  terminal_statuses.contains ctx.status.status

/-- `DriverContext.set_state` (`driver.py` lines 173-177): raising
`TypeError` when the argument is not a subclass of `DriverState`, otherwise
installing a fresh instance of the class bound to this context. The error
branch carries the context so that the theorems can speak about the state
it was left in when the exception was raised. -/
def DriverContext.set_state (ctx : DriverContext) (state_cls : StateClass) :
    Except (PyExn × DriverContext) DriverContext :=
  if ¬ state_cls.isDriverStateSubclass then
    .error (.typeError "state must be a subclass of DriverState.", ctx)
  else
    .ok { ctx with state := { cls := state_cls, driver_context_id := ctx.id } }

/-- The behaviour of the collaborator-supplied step graph: for a state-class
name and the current record, one step either raises an exception or returns
the updated record together with the class of the next state to install
(spec section 3, `StateTransition`: a step either moves to a next step or
marks the record terminal; `DriverState.run` is abstract in `driver.py`). -/
def StepProgram : Type :=
  String → ContextStatusSchema → Except PyExn (ContextStatusSchema × StateClass)

/-- `DriverContext.run` (`driver.py` lines 226-229): first write the class
name of the installed state into `status.current_state`, then execute the
step of that state. On a raise the context is returned with the
`current_state` write retained (the Python record is mutated in place) and
the installed state unchanged; on success the step has produced the new
record and the next state class is installed. -/
def DriverContext.run (prog : StepProgram) (ctx : DriverContext) :
    Except (PyExn × DriverContext) DriverContext :=
  let ctx1 : DriverContext :=
    { ctx with status := { ctx.status with current_state := some ctx.state.cls.name } }
  match prog ctx.state.cls.name ctx1.status with
  | .error e => .error (e, ctx1)
  | .ok (st, nextCls) =>
      .ok { ctx1 with
              status := st,
              state := { cls := nextCls, driver_context_id := ctx1.id } }

/-- Outcome of the `while not driver_context.has_finished(): driver_context.run()`
loop in `Webscrapper.scrape_item` (lines 209-212): the loop either exits
because the status became terminal, or a step raised, or (`fuelOut`) it has
not yet exited within the given fuel. -/
inductive LoopResult where
  | finished (ctx : DriverContext)
  | raised (e : PyExn) (ctx : DriverContext)
  | fuelOut (ctx : DriverContext)
deriving DecidableEq

/-- The context carried by a loop result. -/
def LoopResult.ctx : LoopResult → DriverContext
  | .finished c => c
  | .raised _ c => c
  | .fuelOut c => c

/-- The scrape loop of `Webscrapper.scrape_item`, fuel-indexed. Alongside
the result it returns the trace of record snapshots taken just before each
executed step, so the theorems can speak about which steps ran. -/
def scrapeLoop (prog : StepProgram) :
    Nat → DriverContext → LoopResult × List ContextStatusSchema
  | 0, ctx => (.fuelOut ctx, [])
  | fuel + 1, ctx =>
      if ctx.has_finished then (.finished ctx, [])
      else
        match ctx.run prog with
        | .error (e, c) => (.raised e c, [ctx.status])
        | .ok c =>
            ((scrapeLoop prog fuel c).1, ctx.status :: (scrapeLoop prog fuel c).2)

/-- Result of one `Webscrapper.scrape_item` call as observed by its future:
either it returned a record, or the initial `driver_queue.get(timeout=60)`
timed out and `queue.Empty` escaped (the `get` is outside the try block),
or the loop is still running within the given fuel. -/
inductive ScrapeOutcome where
  | result (st : ContextStatusSchema)
  | raisedEmpty
  | stillRunning
deriving DecidableEq

/-- `Webscrapper.scrape_item` (`webscrapper.py` lines 200-229). The driver
queue is embedded as a FIFO list (`get` takes the head, `put` appends).
An empty queue makes the bounded `get` raise `queue.Empty`, which escapes
because the `get` precedes the try block. Otherwise the acquired context
gets the blank record, the loop runs; the two except branches both store
the raised exception in `status.error`; the finally block puts the context
back on the queue on every exit of the try block. While the loop is still
running the context is checked out, hence absent from the returned queue. -/
def scrape_item (prog : StepProgram) (fuel : Nat) (q : List DriverContext)
    (blank_context_status : ContextStatusSchema) :
    ScrapeOutcome × List DriverContext :=
  match q with
  | [] => (.raisedEmpty, [])
  | dc :: rest =>
      let dc0 : DriverContext := { dc with status := blank_context_status }
      match (scrapeLoop prog fuel dc0).1 with
      | .finished c => (.result c.status, rest ++ [c])
      | .raised e c =>
          let c2 : DriverContext := { c with status := { c.status with error := some e } }
          (.result c2.status, rest ++ [c2])
      | .fuelOut _ => (.stillRunning, rest)

/-- What `as_completed` yields for one future in
`Webscrapper.process_completed_tasks`: the worker returned a record, or the
future was cancelled before running (`future.result()` raises
`CancelledError`), or the worker raised an exception that `future.result()`
re-raises. -/
inductive FutureOutcome where
  | completed (st : ContextStatusSchema)
  | cancelled
  | raised (e : PyExn)
deriving DecidableEq

/-- `Webscrapper.process_completed_future` (`webscrapper.py` lines 177-197).
Returns the record to hand to the sink together with a flag recording
whether `cancel_futures` was invoked; only `CancelledError` is caught, so
any exception re-raised by `future.result()` propagates (`Except.error`).
On `CancelledError` the record is `self.futures[future]`, the submitted
record, with its status set to `CANCELLED`. -/
def process_completed_future (submitted : ContextStatusSchema)
    (outcome : FutureOutcome) : Except PyExn (ContextStatusSchema × Bool) :=
  match outcome with
  | .completed context_status =>
      match context_status.error with
      | some e =>
          if e.isWebScrapperException then
            .ok ({ context_status with status := .FAILED }, false)
          else
            .ok ({ context_status with status := .CRITICAL }, true)
      | none => .ok (context_status, false)
  | .cancelled => .ok ({ submitted with status := .CANCELLED }, false)
  | .raised e => .error e

/-- `Webscrapper.process_completed_tasks` (`webscrapper.py` lines 168-175)
over the futures in completion order, each given with its submitted record.
Returns the list of records handed to `add_context_status` (the result
sink's append contract) in order, paired with the exception that aborted
the collection loop, if any: records accepted before an abort stay
accepted, records after it are never delivered. -/
def process_completed_tasks :
    List (ContextStatusSchema × FutureOutcome) →
      List ContextStatusSchema × Option PyExn
  | [] => ([], none)
  | (submitted, outcome) :: rest =>
      match process_completed_future submitted outcome with
      | .error e => ([], some e)
      | .ok (st, _) =>
          (st :: (process_completed_tasks rest).1, (process_completed_tasks rest).2)

/-- An outcome delivers a record for its task: it is not an escaping
exception, and a completed record carries the identity of the submitted
record (in Python the worker returns the very object that was submitted). -/
def outcome_delivers (p : ContextStatusSchema × FutureOutcome) : Bool :=
  match p.2 with
  | .completed st => st.input_data == p.1.input_data
  | .cancelled => true
  | .raised _ => false

/-- The lifecycle state of one submitted future, following
`concurrent.futures.Future`: pending (not yet started), running,
done with a returned record, or cancelled. -/
inductive FutureState where
  | pending
  | running
  | done (st : ContextStatusSchema)
  | cancelledF
deriving DecidableEq

/-- `future.cancel()`: succeeds only on a pending future, which becomes
cancelled and will never start; a running or done future is unaffected. -/
def FutureState.cancel : FutureState → FutureState
  | .pending => .cancelledF
  | s => s

/-- `Webscrapper.cancel_futures` (`webscrapper.py` lines 242-245): calls
`future.cancel()` on every submitted future. -/
def cancel_futures (fs : List FutureState) : List FutureState :=
  fs.map FutureState.cancel

/-- One scheduling step of the thread-pool executor over the submitted
futures: a pending future may start running, and a running future may
finish with a record. No transition ever makes a future pending. -/
inductive ExecStep : List FutureState → List FutureState → Prop where
  | start (fs : List FutureState) (i : Nat) (h : fs.get? i = some .pending) :
      ExecStep fs (fs.set i .running)
  | finish (fs : List FutureState) (i : Nat) (st : ContextStatusSchema)
      (h : fs.get? i = some .running) : ExecStep fs (fs.set i (.done st))

/-- Executor states reachable by zero or more scheduling steps. -/
def ExecReach : List FutureState → List FutureState → Prop :=
  Relation.ReflTransGen ExecStep

/-- State of the driver pool during shutdown: the queue of idle driver
contexts and the ids of the contexts whose `clear_context` (driver quit)
has been invoked. -/
structure PoolState where
  queue : List DriverContext
  closed : List Nat
deriving DecidableEq

/-- `Webscrapper._clear_driver_context` (`webscrapper.py` lines 260-265):
`driver_queue.get(timeout=1000)` raises `queue.Empty` when the queue stays
empty for the bounded wait; otherwise the obtained context is cleared
(its driver quit) and is not returned to the queue. -/
def clear_one_driver_context (p : PoolState) : Except PyExn PoolState :=
  match p.queue with
  | [] => .error .queueEmpty
  | dc :: rest => .ok { queue := rest, closed := p.closed ++ [dc.id] }

/-- `Webscrapper.clear_driver_queue` (`webscrapper.py` lines 247-258):
iterate `num_drivers = threads_num` times, clearing one context per
iteration; on `queue.Empty` log a warning and break out of the loop. -/
def clear_driver_queue (num_drivers : Nat) (p : PoolState) : PoolState :=
  match num_drivers with
  | 0 => p
  | n + 1 =>
      match clear_one_driver_context p with
      | .error _ => p
      | .ok p1 => clear_driver_queue n p1

/-- A blank record with the given task identity, as produced by the
task-generation collaborator before scheduling. -/
def sampleRecord (n : Nat) : ContextStatusSchema := { input_data := n }

/-- A concrete driver-state class (a genuine subclass of `DriverState`). -/
def sampleClass : StateClass := { name := "ExampleState", isDriverStateSubclass := true }

/-- A concrete class that is not a subclass of `DriverState`. -/
def badClass : StateClass := { name := "NotAState", isDriverStateSubclass := false }

/-- A concrete driver context with the sample state installed. -/
def sampleContext : DriverContext :=
  { id := 0, status := sampleRecord 0,
    state := { cls := sampleClass, driver_context_id := 0 } }

/-- A step graph whose single step marks the record `SUCCEED`. -/
def succeedProgram : StepProgram :=
  fun _ st => .ok ({ st with status := .SUCCEED }, sampleClass)

/-- A step graph whose single step raises an unexpected exception. -/
def raiseProgram : StepProgram :=
  fun _ _ => .error (.otherException "boom")

/-- The sample context with its record already marked `SUCCEED`. -/
def doneContext : DriverContext :=
  { sampleContext with status := { sampleRecord 0 with status := .SUCCEED } }

/-- The sample context as `DriverContext.run` leaves it when its step
raises: only `current_state` has been written. -/
def raisedCtx : DriverContext :=
  { sampleContext with
     status := { sampleContext.status with current_state := some "ExampleState" } }

/-- Two submitted tasks with their outcomes: task 1 completed with a
`SUCCEED` record, task 2 cancelled. -/
def wSubmitted : List (ContextStatusSchema × FutureOutcome) :=
  [(sampleRecord 1, .completed { sampleRecord 1 with status := .SUCCEED }),
   (sampleRecord 2, .cancelled)]

/-- The same two tasks in a different completion order. -/
def wOrder : List (ContextStatusSchema × FutureOutcome) :=
  [(sampleRecord 2, .cancelled),
   (sampleRecord 1, .completed { sampleRecord 1 with status := .SUCCEED })]

end Webharvest

namespace Webharvest

/-- C2: on a completed worker result carrying an expected domain error
(`WebScrapperException`) the collector sets the status to `FAILED` and does
not request cancellation; on any other exception it sets the status to
`CRITICAL` and immediately invokes `cancel_futures`; on a future cancelled
before producing a result it returns the submitted record with status
`CANCELLED`. -/
theorem claim2_failure_dispatch (submitted context_status : ContextStatusSchema) :
    (∀ e, context_status.error = some e → e.isWebScrapperException = true →
        process_completed_future submitted (.completed context_status)
          = .ok ({ context_status with status := .FAILED }, false)) ∧
    (∀ e, context_status.error = some e → e.isWebScrapperException = false →
        process_completed_future submitted (.completed context_status)
          = .ok ({ context_status with status := .CRITICAL }, true)) ∧
    process_completed_future submitted .cancelled
      = .ok ({ submitted with status := .CANCELLED }, false) := by
  refine ⟨?_, ?_, rfl⟩ <;>
    · intro e he hw
      simp [process_completed_future, he, hw]

/-- Witness for C2 at concrete records: an expected failure, an unexpected
failure, and a cancelled future. -/
theorem claim2_failure_dispatch_witness :
    process_completed_future (sampleRecord 1)
        (.completed { sampleRecord 1 with error := some (.webScrapperException "x") })
      = .ok ({ sampleRecord 1 with
                error := some (.webScrapperException "x")
                status := .FAILED }, false) ∧
    process_completed_future (sampleRecord 2)
        (.completed { sampleRecord 2 with error := some (.otherException "y") })
      = .ok ({ sampleRecord 2 with
                error := some (.otherException "y")
                status := .CRITICAL }, true) ∧
    process_completed_future (sampleRecord 3) .cancelled
      = .ok ({ sampleRecord 3 with status := .CANCELLED }, false) :=
  ⟨(claim2_failure_dispatch (sampleRecord 1) _).1 _ rfl rfl,
   (claim2_failure_dispatch (sampleRecord 2) _).2.1 _ rfl rfl,
   (claim2_failure_dispatch (sampleRecord 3) (sampleRecord 3)).2.2⟩

/-- C7: invoking the pool drain when the driver queue is already empty
closes no driver and leaves the pool state unchanged: the first bounded
get raises `queue.Empty` and the loop breaks immediately. -/
theorem claim7_drain_empty_noop (num_drivers : Nat) (p : PoolState)
    (h : p.queue = []) : clear_driver_queue num_drivers p = p := by
  cases num_drivers with
  | zero => rfl
  | succ n => simp [clear_driver_queue, clear_one_driver_context, h]

/-- Witness for C7: draining an empty pool with capacity 3 is a no-op. -/
theorem claim7_drain_empty_noop_witness :
    clear_driver_queue 3 { queue := [], closed := [5] } = { queue := [], closed := [5] } :=
  claim7_drain_empty_noop 3 { queue := [], closed := [5] } rfl

/-- C8: the collector never sets a status to `SUCCEED`: a completed record
with no error is returned entirely unchanged (and with no cancellation
request), a completed record is only ever rewritten to `FAILED` or
`CRITICAL`, and a cancelled future yields status `CANCELLED`. -/
theorem claim8_collector_frame (submitted context_status : ContextStatusSchema) :
    (context_status.error = none →
        process_completed_future submitted (.completed context_status)
          = .ok (context_status, false)) ∧
    (∀ r b, process_completed_future submitted (.completed context_status) = .ok (r, b) →
        r.status = context_status.status ∨ r.status = .FAILED ∨ r.status = .CRITICAL) ∧
    (∀ r b, process_completed_future submitted .cancelled = .ok (r, b) →
        r.status = .CANCELLED) := by
  refine ⟨?_, ?_, ?_⟩
  · intro h
    simp [process_completed_future, h]
  · intro r b h
    cases he : context_status.error with
    | none =>
        simp [process_completed_future, he] at h
        exact Or.inl (by rw [← h.1])
    | some e =>
        by_cases hw : e.isWebScrapperException <;>
          · simp [process_completed_future, he, hw] at h
            rw [← h.1]
            simp
  · intro r b h
    simp [process_completed_future] at h
    rw [← h.1]

/-- Witness for C8: a completed record with no error and status `SUCCEED`
passes through the collector unchanged, and a cancelled future yields
`CANCELLED`. -/
theorem claim8_collector_frame_witness :
    process_completed_future (sampleRecord 4)
        (.completed { sampleRecord 4 with status := .SUCCEED })
      = .ok ({ sampleRecord 4 with status := .SUCCEED }, false) ∧
    (({ sampleRecord 4 with status := ContextStatusEnum.SUCCEED } :
        ContextStatusSchema).status = .SUCCEED ∨
      ({ sampleRecord 4 with status := ContextStatusEnum.SUCCEED } :
        ContextStatusSchema).status = .FAILED ∨
      ({ sampleRecord 4 with status := ContextStatusEnum.SUCCEED } :
        ContextStatusSchema).status = .CRITICAL) :=
  ⟨(claim8_collector_frame (sampleRecord 4) _).1 rfl,
   (claim8_collector_frame (sampleRecord 4)
      { sampleRecord 4 with status := .SUCCEED }).2.1 _ false
      ((claim8_collector_frame (sampleRecord 4) _).1 rfl)⟩

/-- C9: `set_state` with a class that is not a subclass of `DriverState`
raises `TypeError` leaving the context (its installed state included)
unchanged; with a genuine subclass it installs a fresh instance of that
class bound to this context. -/
theorem claim9_set_state (ctx : DriverContext) (state_cls : StateClass) :
    (state_cls.isDriverStateSubclass = false →
        ctx.set_state state_cls
          = .error (.typeError "state must be a subclass of DriverState.", ctx)) ∧
    (state_cls.isDriverStateSubclass = true →
        ctx.set_state state_cls
          = .ok { ctx with state := { cls := state_cls, driver_context_id := ctx.id } }) := by
  constructor <;>
    · intro h
      simp [DriverContext.set_state, h]

/-- Witness for C9: the sample context rejects a non-`DriverState` class
and accepts the sample state class. -/
theorem claim9_set_state_witness :
    sampleContext.set_state badClass
      = .error (.typeError "state must be a subclass of DriverState.", sampleContext) ∧
    sampleContext.set_state sampleClass
      = .ok { sampleContext with
                state := { cls := sampleClass, driver_context_id := sampleContext.id } } :=
  ⟨(claim9_set_state sampleContext badClass).1 rfl,
   (claim9_set_state sampleContext sampleClass).2 rfl⟩

/-- When a step raises, `DriverContext.run` leaves the context exactly as
the initial `current_state` write left it: the record is unchanged apart
from `current_state`, and the installed state is unchanged. -/
theorem run_error_spec (prog : StepProgram) (ctx : DriverContext) (e : PyExn)
    (c : DriverContext) (h : ctx.run prog = .error (e, c)) :
    c = { ctx with
           status := { ctx.status with current_state := some ctx.state.cls.name } } := by
  simp only [DriverContext.run] at h
  split at h
  · simp only [Except.error.injEq, Prod.mk.injEq] at h
    exact h.2.symm
  · simp at h

/-- When a step succeeds, `DriverContext.run` keeps the identity of the
context. -/
theorem run_ok_id (prog : StepProgram) (ctx : DriverContext) (c : DriverContext)
    (h : ctx.run prog = .ok c) : c.id = ctx.id := by
  simp only [DriverContext.run] at h
  split at h
  · simp at h
  · simp only [Except.ok.injEq] at h
    rw [← h]

/-- The scrape loop never changes the identity of the driver context it
works on. -/
theorem scrapeLoop_ctx_id (prog : StepProgram) :
    ∀ (fuel : Nat) (ctx : DriverContext), ((scrapeLoop prog fuel ctx).1.ctx).id = ctx.id := by
  intro fuel
  induction fuel with
  | zero => intro ctx; rfl
  | succ n ih =>
      intro ctx
      rw [scrapeLoop]
      by_cases hf : ctx.has_finished = true
      · simp [hf, LoopResult.ctx]
      · simp only [hf, if_false, Bool.not_eq_true] at *
        simp only [hf, Bool.false_eq_true, if_false]
        cases hr : ctx.run prog with
        | error p =>
            obtain ⟨e, c⟩ := p
            have hc := run_error_spec prog ctx e c hr
            simp [LoopResult.ctx, hc]
        | ok c =>
            have hc := run_ok_id prog ctx c hr
            simpa [LoopResult.ctx, hc] using ih c

/-- Statuses recorded in the loop trace are snapshots taken while the run
had not finished: none of them is terminal. -/
theorem scrapeLoop_trace_nonterminal (prog : StepProgram) :
    ∀ (fuel : Nat) (ctx : DriverContext) (s : ContextStatusSchema),
      s ∈ (scrapeLoop prog fuel ctx).2 →
      terminal_statuses.contains s.status = false := by
  intro fuel
  induction fuel with
  | zero => intro ctx s hs; simp [scrapeLoop] at hs
  | succ n ih =>
      intro ctx s hs
      rw [scrapeLoop] at hs
      by_cases hf : ctx.has_finished = true
      · simp [hf] at hs
      · have hf2 : terminal_statuses.contains ctx.status.status = false := by
          simpa [DriverContext.has_finished, Bool.not_eq_true] using hf
        simp only [hf, Bool.not_eq_true] at *
        simp only [hf, Bool.false_eq_true, if_false] at hs
        cases hr : ctx.run prog with
        | error p =>
            obtain ⟨e, c⟩ := p
            rw [hr] at hs
            simp only [List.mem_singleton] at hs
            rw [hs]
            exact hf2
        | ok c =>
            rw [hr] at hs
            simp only [List.mem_cons] at hs
            rcases hs with hs | hs
            · rw [hs]; exact hf2
            · exact ih c s hs

/-- A loop that exits through the `finished` branch exits on a context
whose status is terminal. -/
theorem scrapeLoop_finished_terminal (prog : StepProgram) :
    ∀ (fuel : Nat) (ctx : DriverContext) (c : DriverContext),
      (scrapeLoop prog fuel ctx).1 = .finished c → c.has_finished = true := by
  intro fuel
  induction fuel with
  | zero => intro ctx c h; simp [scrapeLoop] at h
  | succ n ih =>
      intro ctx c h
      rw [scrapeLoop] at h
      by_cases hf : ctx.has_finished = true
      · simp only [hf, if_true] at h
        simp only [LoopResult.finished.injEq] at h
        rw [← h]
        exact hf
      · simp only [hf, Bool.not_eq_true] at *
        simp only [hf, Bool.false_eq_true, if_false] at h
        cases hr : ctx.run prog with
        | error p =>
            obtain ⟨e, c0⟩ := p
            rw [hr] at h
            simp at h
        | ok c0 =>
            rw [hr] at h
            exact ih c0 c h

/-- A loop that exits through a raise leaves a context whose
`current_state` names the class of the state that was installed (and hence
running) when the raise happened. -/
theorem scrapeLoop_raised_names_state (prog : StepProgram) :
    ∀ (fuel : Nat) (ctx : DriverContext) (e : PyExn) (c : DriverContext),
      (scrapeLoop prog fuel ctx).1 = .raised e c →
      c.status.current_state = some c.state.cls.name := by
  intro fuel
  induction fuel with
  | zero => intro ctx e c h; simp [scrapeLoop] at h
  | succ n ih =>
      intro ctx e c h
      rw [scrapeLoop] at h
      by_cases hf : ctx.has_finished = true
      · simp [hf] at h
      · simp only [hf, Bool.not_eq_true] at *
        simp only [hf, Bool.false_eq_true, if_false] at h
        cases hr : ctx.run prog with
        | error p =>
            obtain ⟨e0, c0⟩ := p
            rw [hr] at h
            simp only [LoopResult.raised.injEq] at h
            have hc := run_error_spec prog ctx e0 c0 hr
            rw [← h.2, hc]
        | ok c0 =>
            rw [hr] at h
            exact ih c0 e c h

/-- C5: the worker loop runs steps while and only while the record status
is outside the terminal set: every executed step starts from a
non-terminal status; a terminal status means the loop exits immediately
with no step executed; a non-terminal status (given fuel) means at least
one step executes; and an exit through the `finished` branch happens only
on a terminal status. -/
theorem claim5_loop_runs_iff_nonterminal (prog : StepProgram) (fuel : Nat)
    (ctx : DriverContext) :
    (∀ s ∈ (scrapeLoop prog fuel ctx).2, terminal_statuses.contains s.status = false) ∧
    (ctx.has_finished = true → (scrapeLoop prog fuel ctx).2 = []) ∧
    (ctx.has_finished = true → fuel ≠ 0 → scrapeLoop prog fuel ctx = (.finished ctx, [])) ∧
    (ctx.has_finished = false → fuel ≠ 0 → (scrapeLoop prog fuel ctx).2 ≠ []) ∧
    (∀ c, (scrapeLoop prog fuel ctx).1 = .finished c → c.has_finished = true) := by
  refine ⟨fun s hs => scrapeLoop_trace_nonterminal prog fuel ctx s hs, ?_, ?_, ?_, ?_⟩
  · intro hf
    cases fuel with
    | zero => rfl
    | succ n => rw [scrapeLoop]; simp [hf]
  · intro hf hn
    cases fuel with
    | zero => exact absurd rfl hn
    | succ n => rw [scrapeLoop]; simp [hf]
  · intro hf hn
    cases fuel with
    | zero => exact absurd rfl hn
    | succ n =>
        rw [scrapeLoop]
        simp only [hf, Bool.false_eq_true, if_false]
        cases hr : ctx.run prog with
        | error p => obtain ⟨e, c⟩ := p; simp
        | ok c => simp
  · exact fun c h => scrapeLoop_finished_terminal prog fuel ctx c h

/-- Witness for C5: on a terminal record the loop exits at once with an
empty trace; on the fresh sample context (status `INITIALIZED`) at least
one step runs. -/
theorem claim5_loop_runs_iff_nonterminal_witness :
    scrapeLoop succeedProgram 3 doneContext = (.finished doneContext, []) ∧
    (scrapeLoop succeedProgram 3 sampleContext).2 ≠ [] :=
  ⟨(claim5_loop_runs_iff_nonterminal succeedProgram 3 doneContext).2.2.1 rfl
      (by decide),
   (claim5_loop_runs_iff_nonterminal succeedProgram 3 sampleContext).2.2.2.1 rfl
      (by decide)⟩

/-- C10: `DriverContext.run` writes the class name of the installed state
into `current_state` before executing the step, so when a step raises the
record names exactly the state that was running: at the `run` level the
raised context is the original one with only `current_state` written, and
at the loop level the record of a `raised` exit names the class of the
still-installed raising state. -/
theorem claim10_current_state_names_raising_step (prog : StepProgram)
    (ctx : DriverContext) :
    (∀ e c, ctx.run prog = .error (e, c) →
        c = { ctx with
               status := { ctx.status with
                            current_state := some ctx.state.cls.name } }) ∧
    (∀ fuel e c, (scrapeLoop prog fuel ctx).1 = .raised e c →
        c.status.current_state = some c.state.cls.name) :=
  ⟨fun e c h => run_error_spec prog ctx e c h,
   fun fuel e c h => scrapeLoop_raised_names_state prog fuel ctx e c h⟩

/-- Witness for C10: the raising sample program leaves the sample context
with `current_state` naming the raising state class. -/
theorem claim10_current_state_names_raising_step_witness :
    raisedCtx.status.current_state = some raisedCtx.state.cls.name :=
  (claim10_current_state_names_raising_step raiseProgram sampleContext).2
    3 (.otherException "boom") raisedCtx (by decide)

/-- C4: whenever `scrape_item` exits (normal success, expected failure, or
unexpected failure; a cancelled future never enters `scrape_item` at all),
the multiset of driver identities in the queue is exactly what it was
before the call: a successfully acquired driver is put back exactly once by
the finally block, and a failed acquire (empty queue) touches nothing. -/
theorem claim4_release_exactly_once (prog : StepProgram) (fuel : Nat)
    (q : List DriverContext) (blank : ContextStatusSchema)
    (h : (scrape_item prog fuel q blank).1 ≠ .stillRunning) :
    ((scrape_item prog fuel q blank).2.map DriverContext.id).Perm
      (q.map DriverContext.id) := by
  cases q with
  | nil => simp [scrape_item]
  | cons dc rest =>
      cases hL : (scrapeLoop prog fuel { dc with status := blank }).1 with
      | finished c =>
          have hid : c.id = dc.id := by
            have h2 := scrapeLoop_ctx_id prog fuel { dc with status := blank }
            rw [hL] at h2
            exact h2
          simp only [scrape_item, hL, List.map_append, List.map_cons, List.map_nil]
          rw [hid]
          exact List.perm_append_comm
      | raised e c =>
          have hid : c.id = dc.id := by
            have h2 := scrapeLoop_ctx_id prog fuel { dc with status := blank }
            rw [hL] at h2
            exact h2
          simp only [scrape_item, hL, List.map_append, List.map_cons, List.map_nil]
          rw [hid]
          exact List.perm_append_comm
      | fuelOut c =>
          exact absurd (by simp [scrape_item, hL]) h

/-- Witness for C4: one driver in the queue, a one-step succeeding task:
the queue ends with the same driver identities it started with. -/
theorem claim4_release_exactly_once_witness :
    ((scrape_item succeedProgram 3 [sampleContext] (sampleRecord 9)).2.map
        DriverContext.id).Perm ([sampleContext].map DriverContext.id) :=
  claim4_release_exactly_once succeedProgram 3 [sampleContext] (sampleRecord 9)
    (by decide)

/-- When every outcome delivers (no worker exception escapes to the
collector), the collection loop finishes without raising and hands to the
sink exactly one record per future, in order, each carrying the identity of
its submitted record. -/
theorem process_tasks_delivers (order : List (ContextStatusSchema × FutureOutcome))
    (hok : ∀ p ∈ order, outcome_delivers p = true) :
    (process_completed_tasks order).2 = none ∧
    (process_completed_tasks order).1.map ContextStatusSchema.input_data
      = order.map (fun p => p.1.input_data) := by
  induction order with
  | nil => exact ⟨rfl, rfl⟩
  | cons p rest ih =>
      obtain ⟨submitted, outcome⟩ := p
      have hp := hok _ (List.mem_cons_self _ _)
      have ihr := ih (fun q hq => hok q (List.mem_cons_of_mem _ hq))
      cases outcome with
      | raised e => simp [outcome_delivers] at hp
      | cancelled =>
          simp [process_completed_tasks, process_completed_future, ihr.1, ihr.2]
      | completed st =>
          have hid : st.input_data = submitted.input_data := by
            simpa [outcome_delivers] using hp
          cases herr : st.error with
          | none =>
              simp [process_completed_tasks, process_completed_future, herr,
                    ihr.1, ihr.2, hid]
          | some e =>
              by_cases hw : e.isWebScrapperException = true <;>
                simp [process_completed_tasks, process_completed_future, herr, hw,
                      ihr.1, ihr.2, hid]

/-- C1 (amended): for any number of submitted tasks collected in any
completion order, provided each future completes with its record or is
cancelled — that is, no worker exception escapes to the collector, which
in this code only the acquire-timeout `queue.Empty` can do — the
collection loop does not abort and the sink receives exactly one record
per submitted task — no duplicates, no omissions — cancellation included.
Without that proviso the property fails: see the counterexample below. -/
theorem claim1_collector_delivers_each_record_once
    (submitted order : List (ContextStatusSchema × FutureOutcome))
    (hperm : order.Perm submitted)
    (hok : ∀ p ∈ order, outcome_delivers p = true) :
    (process_completed_tasks order).2 = none ∧
    ((process_completed_tasks order).1.map ContextStatusSchema.input_data).Perm
      (submitted.map (fun p => p.1.input_data)) := by
  have h := process_tasks_delivers order hok
  refine ⟨h.1, ?_⟩
  rw [h.2]
  exact hperm.map _

/-- Witness for C1: two tasks, one completed and one cancelled, collected
in reversed order: no abort, and the delivered identities are a
permutation of the submitted ones. -/
theorem claim1_collector_delivers_each_record_once_witness :
    (process_completed_tasks wOrder).2 = none ∧
    ((process_completed_tasks wOrder).1.map ContextStatusSchema.input_data).Perm
      (wSubmitted.map (fun p => p.1.input_data)) :=
  claim1_collector_delivers_each_record_once wSubmitted wOrder (by decide) (by decide)

/-- C1 counterexample: a concrete run with two submitted tasks in which
the second worker's pool acquire timed out (`queue.Empty` escaped its
future while the first completed normally): the collector delivers only
one of the two records and aborts with the re-raised exception, so not
every submitted record is handed to the sink — the claim over every run
with pool capacity at least one is false of the code as stated. -/
theorem claim1_counterexample_timeout_omits_records :
    (process_completed_tasks
        [(sampleRecord 11, .completed { sampleRecord 11 with status := .SUCCEED }),
         (sampleRecord 12, .raised .queueEmpty)]).1
      = [{ sampleRecord 11 with status := .SUCCEED }] ∧
    (process_completed_tasks
        [(sampleRecord 11, .completed { sampleRecord 11 with status := .SUCCEED }),
         (sampleRecord 12, .raised .queueEmpty)]).1.length ≠ 2 ∧
    (process_completed_tasks
        [(sampleRecord 11, .completed { sampleRecord 11 with status := .SUCCEED }),
         (sampleRecord 12, .raised .queueEmpty)]).2 = some PyExn.queueEmpty :=
  ⟨rfl, by decide, rfl⟩

/-- An element of a list after `set` is either an original element or the
written value. -/
theorem get?_set_or {α : Type} (l : List α) (i j : Nat) (a : α) :
    (l.set i a).get? j = l.get? j ∨ (l.set i a).get? j = some a := by
  induction l generalizing i j with
  | nil => left; rfl
  | cons x xs ih =>
      cases i with
      | zero =>
          cases j with
          | zero => right; rfl
          | succ m => left; rfl
      | succ n =>
          cases j with
          | zero => left; rfl
          | succ m => exact ih n m

/-- `future.cancel()` never produces a pending future. -/
theorem cancel_not_pending (s : FutureState) : s.cancel ≠ FutureState.pending := by
  cases s <;> simp [FutureState.cancel]

/-- Right after `cancel_futures`, no future is pending. -/
theorem cancel_futures_no_pending (fs : List FutureState) (i : Nat) :
    (cancel_futures fs).get? i ≠ some FutureState.pending := by
  induction fs generalizing i with
  | nil => intro h; simp [cancel_futures] at h
  | cons x xs ih =>
      cases i with
      | zero =>
          intro h
          simp only [cancel_futures, List.map_cons, List.get?_cons_zero,
                     Option.some.injEq] at h
          exact cancel_not_pending x h
      | succ n => exact ih n

/-- One executor step preserves the absence of pending futures (a start
step is not even enabled without a pending future). -/
theorem exec_step_no_pending {fs fs2 : List FutureState}
    (hstep : ExecStep fs fs2)
    (hinv : ∀ i, fs.get? i ≠ some FutureState.pending) :
    ∀ i, fs2.get? i ≠ some FutureState.pending := by
  cases hstep with
  | start i h => exact absurd h (hinv i)
  | finish i st h =>
      intro j hj
      rcases get?_set_or fs i j (FutureState.done st) with hc | hc
      · rw [hc] at hj
        exact hinv j hj
      · rw [hc] at hj
        simp at hj

/-- Reachability preserves the absence of pending futures. -/
theorem exec_reach_no_pending {fs fs2 : List FutureState}
    (hreach : ExecReach fs fs2)
    (hinv : ∀ i, fs.get? i ≠ some FutureState.pending) :
    ∀ i, fs2.get? i ≠ some FutureState.pending := by
  have hr : Relation.ReflTransGen ExecStep fs fs2 := hreach
  clear hreach
  induction hr with
  | refl => exact hinv
  | tail hab hbc ih => exact exec_step_no_pending hbc ih

/-- C3: from the moment `cancel_futures` has run, no not-yet-started
future ever starts: in every executor state reachable from the cancelled
one, no future is pending (so the start transition is never enabled), and
every future is running, cancelled, or done — it terminates with
`Cancelled` or its own natural terminal record. A cancelled future still
yields a `Cancelled` record to the collector rather than hanging it. -/
theorem claim3_no_start_after_cancellation (fs fs2 : List FutureState)
    (hreach : ExecReach (cancel_futures fs) fs2) :
    (∀ i, fs2.get? i ≠ some FutureState.pending) ∧
    (∀ i s, fs2.get? i = some s →
        s = FutureState.running ∨ s = FutureState.cancelledF ∨
          ∃ st, s = FutureState.done st) ∧
    (∀ submitted : ContextStatusSchema,
        process_completed_future submitted FutureOutcome.cancelled
          = .ok ({ submitted with status := ContextStatusEnum.CANCELLED }, false)) := by
  have hnp := exec_reach_no_pending hreach (cancel_futures_no_pending fs)
  refine ⟨hnp, ?_, fun submitted => rfl⟩
  intro i s hs
  cases s with
  | pending => exact absurd hs (hnp i)
  | running => exact Or.inl rfl
  | cancelledF => exact Or.inr (Or.inl rfl)
  | done st => exact Or.inr (Or.inr ⟨st, rfl⟩)

/-- Witness for C3: cancelling a mix of pending, running, and done futures
leaves no pending future in the immediately reached state. -/
theorem claim3_no_start_after_cancellation_witness :
    (cancel_futures [FutureState.pending, FutureState.running,
        FutureState.done (sampleRecord 6)]).get? 0 ≠ some FutureState.pending :=
  (claim3_no_start_after_cancellation
      [FutureState.pending, FutureState.running, FutureState.done (sampleRecord 6)]
      _ Relation.ReflTransGen.refl).1 0

/-- C6 counterexample: with an empty driver pool the bounded acquire in
`scrape_item` raises `queue.Empty` before the try block, and the collector
(which catches only `CancelledError`) re-raises it: the run delivers no
record at all for that task — in particular no record with status
`CRITICAL` — refuting the claim that the run still produces a record whose
failure is of the Critical-triggering kind. -/
theorem claim6_timeout_record_lost_counterexample :
    scrape_item succeedProgram 3 [] (sampleRecord 7) = (.raisedEmpty, []) ∧
    process_completed_tasks [(sampleRecord 7, .raised .queueEmpty)]
      = ([], some PyExn.queueEmpty) ∧
    (process_completed_tasks [(sampleRecord 7, .raised .queueEmpty)]).1 = [] :=
  ⟨rfl, rfl, rfl⟩

/-- C6 amended: when the acquire of a driver times out, `queue.Empty`
escapes the worker (the get precedes the try block), `future.result()`
re-raises it in `process_completed_future`, which catches only
`CancelledError`, and the whole collection loop aborts with that
exception: no record for that task (nor for any later-collected task)
reaches the sink, and no record is marked `CRITICAL` by this path. -/
theorem claim6_amended_timeout_aborts_collection (prog : StepProgram) (fuel : Nat)
    (blank : ContextStatusSchema) (e : PyExn)
    (rest : List (ContextStatusSchema × FutureOutcome)) :
    scrape_item prog fuel [] blank = (.raisedEmpty, []) ∧
    process_completed_tasks ((blank, .raised e) :: rest) = ([], some e) :=
  ⟨rfl, rfl⟩

end Webharvest
